import Mathlib

/-!
Shallow embedding of the network-data-template application core
(`network_data_template_app`): the Data Management connection resolver,
the schema registry resolver and Avro decoder, the message bus consumer,
and the periodic report generator.  Python side effects (logging, the
module-level status map, the consumed/processed counters, retry sleeps,
the memoization cache) are made explicit as values threaded through the
functions; Python exceptions are modelled with `Except`.
-/

namespace NetworkDataTemplateApp

/-- Severity levels of the application logger (`mtls_logging.logger`). -/
inductive Severity
  | debug
  | info
  | warning
  | error
  | critical
deriving DecidableEq, Repr

/-- One emitted log line: severity and the interpolated message text. -/
structure LogEntry where
  level : Severity
  msg : String
deriving DecidableEq, Repr

/-- Cause recorded in a raised `DataManagementError` (`data_management.py`): the
final retry failed on a missing token, the final retry failed on an HTTP status
error, or the job list was empty. -/
inductive DMCause
  | token
  | http
  | noJobFound
deriving DecidableEq, Repr

/-- Python exceptions that the embedded code can raise or propagate. -/
inductive PyExc
  | attributeError
  | typeError
  | keyError
  | indexError
  | runtimeError
  | kafkaException (fatal : Bool)
  | dataManagementError (cause : DMCause)
  | systemExit (code : Nat)
deriving DecidableEq, Repr

/-! ## Data Management (`data_management.py`) -/

/-- One entry of `streamingConfigurationKafka.kafkaBootstrapServers`. -/
structure KafkaServer where
  hostname : String
  portAddress : Nat
deriving DecidableEq, Repr

/-- The nested `streamingConfigurationKafka` block of a data job. -/
structure StreamingConfigurationKafka where
  kafkaBootstrapServers : List KafkaServer
  topicName : String
deriving DecidableEq, Repr

/-- One data job record returned by the Data Management jobs endpoint. -/
structure DataJob where
  dataJobName : Option String
  streamingConfigurationKafka : StreamingConfigurationKafka
deriving DecidableEq, Repr

/-- Outcome of one attempt of `client.request` plus `raise_for_status` in
`_get_data_jobs`: a successful response carrying the parsed JSON job list, an
`HTTPStatusError`, or a `MissingTokenError`. -/
inductive AttemptResult
  | success (jobs : List DataJob)
  | httpStatusError
  | missingTokenError
deriving DecidableEq, Repr

/-- The `DataManagementError` cause corresponding to a failed attempt. -/
def failureCause : AttemptResult → Option DMCause
  | .success _ => none
  | .httpStatusError => some .http
  | .missingTokenError => some .token

/-- The retry loop `for attempt in range(max_retries)` of `_get_data_jobs`.
The network is an oracle `attemptOutcome` indexed by the attempt number.  The
returned list of naturals records the arguments of the `time.sleep` calls
(`retry_delay * 2 ** attempt`), in order.  The loop yields `some jobs` when an
attempt succeeds and breaks; it yields `none` when the loop ends without any
attempt (only possible for `maxRetries = 0`, leaving `response = None`); it
raises `DataManagementError` when the last attempt fails. -/
def dataJobsAttemptLoop (attemptOutcome : Nat → AttemptResult)
    (maxRetries retryDelay attempt : Nat) (sleeps : List Nat) :
    Except PyExc (Option (List DataJob)) × List Nat :=
  if _h : attempt < maxRetries then
    match attemptOutcome attempt with
    | .success jobs => (.ok (some jobs), sleeps)
    | .httpStatusError =>
      if attempt < maxRetries - 1 then
        dataJobsAttemptLoop attemptOutcome maxRetries retryDelay (attempt + 1)
          (sleeps ++ [retryDelay * 2 ^ attempt])
      else (.error (.dataManagementError .http), sleeps)
    | .missingTokenError =>
      if attempt < maxRetries - 1 then
        dataJobsAttemptLoop attemptOutcome maxRetries retryDelay (attempt + 1)
          (sleeps ++ [retryDelay * 2 ^ attempt])
      else (.error (.dataManagementError .token), sleeps)
  else (.ok none, sleeps)
termination_by maxRetries - attempt
decreasing_by all_goals omega

/-- Model of `_get_data_jobs`: run the retry loop, then inspect the response.
If the loop left `response = None` (zero attempts), `len(response.json())`
raises `AttributeError`.  An empty job list raises
`DataManagementError("No data job found!")`; one job logs a debug line; more
than one job logs the multiple-jobs warning.  Returns the job list together
with the emitted log lines, paired with the recorded sleep delays. -/
def get_data_jobs (attemptOutcome : Nat → AttemptResult)
    (maxRetries retryDelay : Nat) :
    Except PyExc (List DataJob × List LogEntry) × List Nat :=
  match dataJobsAttemptLoop attemptOutcome maxRetries retryDelay 0 [] with
  | (.error e, sleeps) => (.error e, sleeps)
  | (.ok none, sleeps) => (.error .attributeError, sleeps)
  | (.ok (some jobs), sleeps) =>
    let log1 : List LogEntry :=
      if jobs.length = 1 then [⟨.debug, "Retrieved data job"⟩] else []
    let log2 : List LogEntry :=
      if jobs.length > 1 then
        [⟨.warning,
          "More than one data job retrieved. Network Data Template App only supports one active data job, unexpected behaviour may occur!"⟩]
      else []
    if jobs.length = 0 then
      (.error (.dataManagementError .noJobFound), sleeps)
    else (.ok (jobs, log1 ++ log2), sleeps)

/-- Model of `_parse_message_bus_connection`: read the first bootstrap server
and the topic name of a data job; indexing `[0]` of an empty server list raises
`IndexError`.  Returns `(topic, hostname, port)`. -/
def parse_message_bus_connection (dataJob : DataJob) :
    Except PyExc (String × String × Nat) :=
  match dataJob.streamingConfigurationKafka.kafkaBootstrapServers with
  | [] => .error .indexError
  | server :: _ =>
    .ok (dataJob.streamingConfigurationKafka.topicName,
      server.hostname, server.portAddress)

/-- The resolved message bus connection details, as returned by
`get_message_bus_details`. -/
structure SubscriptionDescriptor where
  topic : String
  hostname : String
  port : Nat
deriving DecidableEq, Repr

/-- Model of `get_message_bus_details`: fetch the data jobs, then parse
`data_jobs[0]` into the descriptor dictionary. -/
def get_message_bus_details (attemptOutcome : Nat → AttemptResult)
    (maxRetries retryDelay : Nat) :
    Except PyExc (SubscriptionDescriptor × List LogEntry) × List Nat :=
  match get_data_jobs attemptOutcome maxRetries retryDelay with
  | (.error e, sleeps) => (.error e, sleeps)
  | (.ok (jobs, log), sleeps) =>
    match jobs with
    | [] => (.error .indexError, sleeps)
    | j :: _ =>
      match parse_message_bus_connection j with
      | .error e => (.error e, sleeps)
      | .ok (t, h, p) => (.ok (⟨t, h, p⟩, log), sleeps)

/-! ## Schema registry (`schema_registry.py`) -/

/-- A parsed Avro schema descriptor (an abstract token standing for the result
of `avro.schema.parse`). -/
structure AvroSchema where
  raw : String
deriving DecidableEq, Repr

/-- Outcome of one registry request in `get_schema`: a successful response
whose JSON parses into a schema, an `HTTPStatusError` from
`raise_for_status`, or a `MissingTokenError` from the OAuth client. -/
inductive FetchResult
  | success (schema : AvroSchema)
  | httpStatusError
  | missingTokenError
deriving DecidableEq, Repr

/-- Body of `get_schema` without the `alru_cache` decorator: return the parsed
schema on success; on `HTTPStatusError` or `MissingTokenError`, log an error
and return `None`.  Returns the result paired with the emitted log lines. -/
def get_schema_body (r : FetchResult) : Option AvroSchema × List LogEntry :=
  match r with
  | .success s => (some s, [])
  | .httpStatusError =>
    (none, [⟨.error, "HTTPS error while fetching schema from schema registry "⟩])
  | .missingTokenError =>
    (none, [⟨.error, "Missing token while fetching schema from schema registry "⟩])

/-- The argument tuple `alru_cache` uses as the memoization key:
`(iam_base_url, client, schema_id)`, the client identified by an id. -/
structure SchemaKey where
  iamBaseUrl : String
  clientId : Nat
  schemaId : String
deriving DecidableEq, Repr

/-- The default `maxsize` of `async_lru.alru_cache` when used as a bare
decorator, as on `get_schema`. -/
def ALRU_MAXSIZE : Nat := 128

/-- State of the `alru_cache` decoration of `get_schema`: the memoization
table ordered from least to most recently used, and the number of registry
requests issued so far. -/
structure SchemaCacheState where
  cache : List (SchemaKey × Option AvroSchema)
  requests : Nat
deriving DecidableEq, Repr

/-- Model of the decorated `get_schema`.  The bare `@alru_cache` decorator is
a bounded LRU cache with `maxsize = 128`: a hit returns the cached value
(even a cached `None`) without touching the network and moves the entry to
the most-recently-used end; a miss issues one registry request (outcome given
by the oracle, indexed by the running request count), stores the returned
value at the most-recently-used end, and evicts the least recently used entry
when the cache has grown beyond `maxsize`. -/
def get_schema (registryOutcome : Nat → FetchResult) (key : SchemaKey)
    (st : SchemaCacheState) : Option AvroSchema × SchemaCacheState :=
  match st.cache.lookup key with
  | some v =>
    (v, ⟨st.cache.filter (fun p => p.1 != key) ++ [(key, v)], st.requests⟩)
  | none =>
    let v := (get_schema_body (registryOutcome st.requests)).1
    let cache1 := st.cache ++ [(key, v)]
    let cache2 := if cache1.length > ALRU_MAXSIZE then cache1.drop 1 else cache1
    (v, ⟨cache2, st.requests + 1⟩)

/-- Run a sequence of `get_schema` calls, discarding the returned schemas and
keeping the cache state. -/
def runSchemaCalls (registryOutcome : Nat → FetchResult) :
    List SchemaKey → SchemaCacheState → SchemaCacheState
  | [], st => st
  | k :: ks, st => runSchemaCalls registryOutcome ks (get_schema registryOutcome k st).2

/-- The deserialized Avro record, restricted to the fields the consumer reads:
`dnPrefix`, `moFdn` and `pmCounters` (the counters payload abstracted to a
number).  A `none` field models a key absent from the decoded dictionary
(`dict.get` returns `None`). -/
structure AvroRecord where
  dnPrefixField : Option String
  moFdnField : Option String
  pmCounters : Option Nat
deriving DecidableEq, Repr

/-- Outcome of `reader.read(value_reader)` in `deserialize_message`: a decoded
record, an `AvroTypeException`, another `AvroException` (schema errors, and on
recent Avro versions the `IONotReadyException` raised for a `None` schema), or
an exception outside the Avro hierarchy (on older Avro versions a `None`
schema raises `AttributeError` from the schema-matching step). -/
inductive ReadOutcome
  | ok (record : AvroRecord)
  | avroTypeError
  | avroSchemaError
  | otherError
deriving DecidableEq, Repr

/-- Model of `deserialize_message`: the Avro library behavior is the oracle
`readDatum` applied to the schema (possibly `None`) and the framed bytes.
`AvroTypeException` and `AvroException` are caught, logged with the schema id,
and turned into `None`; any other exception propagates. -/
def deserialize_message (readDatum : Option AvroSchema → List Nat → ReadOutcome)
    (avroValue : List Nat) (schema : Option AvroSchema) (schemaId : String)
    (log : List LogEntry) : Except PyExc (Option AvroRecord) × List LogEntry :=
  match readDatum schema avroValue with
  | .ok r => (.ok (some r), log)
  | .avroTypeError =>
    (.ok none, log ++ [⟨.error, "Avro type error for schema ID " ++ schemaId ++ ": "⟩])
  | .avroSchemaError =>
    (.ok none, log ++ [⟨.error, "Avro schema error for schema ID " ++ schemaId ++ ": "⟩])
  | .otherError => (.error .attributeError, log)

/-! ## Message bus consumer (`message_bus_consumer.py`) -/

/-- The value `"urn:3gpp:dn:"` of the module constant `FDN_PREFIX`. -/
def FDN_PREFIX_VALUE : String := "urn:3gpp:dn:"

/-- The module constant `AVRO_MAGIC_BYTE_COUNT`. -/
def AVRO_MAGIC_BYTE_COUNT : Nat := 5

/-- One component of a raw Kafka header tuple: a `bytes` value, a `str`
value, or `None`. -/
inductive HVal
  | bytes (s : String)
  | str (s : String)
  | none
deriving DecidableEq, Repr

/-- The per-component expression of `_parse_message_headers`:
`value.decode("utf-8") if isinstance(value, bytes) else value or ""`.
A `str` value passes through unchanged because the only falsy string is the
empty string, for which `value or ""` is again the empty string. -/
def decode_header_value : HVal → String
  | .bytes s => s
  | .str s => s
  | .none => ""

/-- Model of `_parse_message_headers`: decode both components of every header
tuple. -/
def parse_message_headers (headers : List (HVal × HVal)) : List (String × String) :=
  headers.map (fun h => (decode_header_value h.1, decode_header_value h.2))

/-- Model of `_extract_schema_id`: the value of the first parsed header whose
key is `"schemaID"`, else `None`. -/
def extract_schema_id (parsedHeaders : List (String × String)) : Option String :=
  (parsedHeaders.find? (fun h => h.1 = "schemaID")).map Prod.snd

/-- Model of `_is_relevant_motype`: some parsed header has key `"moType"` and
the given value (default `"NRCellDU_GNBDU"`). -/
def is_relevant_motype (parsedHeaders : List (String × String))
    (motype : String := "NRCellDU_GNBDU") : Bool :=
  parsedHeaders.any (fun h => h.1 = "moType" && h.2 = motype)

/-- Python truthiness of an optional string: `None` and the empty string are
falsy (the `if not schema_id` test). -/
def strOptFalsy : Option String → Bool
  | Option.none => true
  | Option.some s => s = ""

/-- Assignment `d[k] = v` on a Python dict modelled as an insertion-ordered
association list: update the entry in place when the key is present, append it
otherwise. -/
def dictSet (m : List (String × Bool)) (k : String) (v : Bool) :
    List (String × Bool) :=
  if (m.map Prod.fst).contains k then
    m.map (fun p => if p.1 = k then (p.1, v) else p)
  else m ++ [(k, v)]

/-- Model of the module-level `_set_counter_status`: if the urn is one of our
prefixed FDNs and the decoded message carries a non-`None` `pmCounters` entry,
set that FDN to `True` in the status map; otherwise leave the map alone. -/
def set_counter_status (deserializedMessage : AvroRecord)
    (prefixedFdns : List String) (urnDnPrefixMoFdn : String)
    (m : List (String × Bool)) : List (String × Bool) :=
  if urnDnPrefixMoFdn ∈ prefixedFdns then
    if deserializedMessage.pmCounters ≠ Option.none then
      dictSet m urnDnPrefixMoFdn true
    else m
  else m

/-- A Kafka error object: `err.fatal()`. -/
structure KafkaErr where
  fatal : Bool
deriving DecidableEq, Repr

/-- A Kafka message: headers, raw value bytes, and the result of
`message.error()`. -/
structure KafkaMsg where
  headers : List (HVal × HVal)
  value : List Nat
  error : Option KafkaErr
deriving DecidableEq, Repr

/-- The mutable state of a `MessageBusConsumer` read and written by the
consume path, together with the module-level status map and the log. -/
structure ConsumerSt where
  closed : Bool
  consumed : Nat
  processed : Nat
  prefixedFdns : List String
  statusMap : List (String × Bool)
  schema : Option AvroSchema
  log : List LogEntry
deriving DecidableEq, Repr

/-- Model of `__handle_kafka_error`: a fatal error logs at critical severity
and closes the consumer (`self.consumer.close()`); a non-fatal error is only
logged.  The callback itself never raises and never exits. -/
def handle_kafka_error (err : KafkaErr) (st : ConsumerSt) : ConsumerSt :=
  if err.fatal then
    { st with
      closed := true
      log := st.log ++ [⟨.critical,
        "Fatal error occurred while consuming messages from Kafka. App will close shortly. "⟩] }
  else
    { st with
      log := st.log ++ [⟨.error, "An error occurred while interacting with Kafka: "⟩] }

/-- Model of `__process_message`: strip the 5 framing bytes, deserialize, then
build `urn_dn_prefix_mo_fdn` from the decoded `dnPrefix` and `moFdn` fields,
update the status map via `_set_counter_status`, and increment the processed
counter.  `deserialized_message.get("dnPrefix")` on a `None` deserialized
message raises `AttributeError`; concatenating a missing (`None`) field into
the urn string raises `TypeError`. -/
def process_message (readDatum : Option AvroSchema → List Nat → ReadOutcome)
    (msgValue : List Nat) (schemaId : String) (st : ConsumerSt) :
    Except PyExc ConsumerSt :=
  let avroValue := msgValue.drop AVRO_MAGIC_BYTE_COUNT
  match deserialize_message readDatum avroValue st.schema schemaId st.log with
  | (.error e, _) => .error e
  | (.ok Option.none, _) => .error .attributeError
  | (.ok (Option.some d), log1) =>
    match d.dnPrefixField, d.moFdnField with
    | Option.some dp, Option.some mf =>
      let urn := FDN_PREFIX_VALUE ++ dp ++ "," ++ mf
      let m1 := set_counter_status d st.prefixedFdns urn st.statusMap
      .ok { st with statusMap := m1, processed := st.processed + 1, log := log1 }
    | _, _ => .error .typeError

/-- Model of `__handle_valid_message`: parse the headers, extract the schema
id, increment the consumed counter; a missing or empty schema id logs a
warning and returns; otherwise resolve the schema into `self.schema` (the
resolver given as a pure oracle; its memoization is modelled separately by
`get_schema`) and, if the moType header is relevant, process the message. -/
def handle_valid_message (resolveSchema : String → Option AvroSchema)
    (readDatum : Option AvroSchema → List Nat → ReadOutcome)
    (message : KafkaMsg) (st : ConsumerSt) : Except PyExc ConsumerSt :=
  let parsedHeaders := parse_message_headers message.headers
  let schemaId := extract_schema_id parsedHeaders
  let st1 := { st with consumed := st.consumed + 1 }
  if strOptFalsy schemaId then
    .ok { st1 with log := st1.log ++
      [⟨.warning, "Received a message without a schema ID in its headers"⟩] }
  else
    let sid := schemaId.getD ""
    let st2 := { st1 with schema := resolveSchema sid }
    if is_relevant_motype parsedHeaders then
      process_message readDatum message.value sid st2
    else .ok st2

/-- The filter `[m for m in messages if m and not self.__is_error(m)]`:
`None` entries are dropped; `__is_error` routes an error-bearing message to
`__handle_kafka_error` (which may close the consumer) and drops it. -/
def filter_valid_messages (messages : List (Option KafkaMsg)) (st : ConsumerSt) :
    List KafkaMsg × ConsumerSt :=
  match messages with
  | [] => ([], st)
  | Option.none :: rest => filter_valid_messages rest st
  | Option.some m :: rest =>
    match m.error with
    | Option.some e => filter_valid_messages rest (handle_kafka_error e st)
    | Option.none =>
      let (v, st1) := filter_valid_messages rest st
      (m :: v, st1)

/-- Handling of the valid messages of one batch.  The source awaits an
`asyncio.gather` of `__handle_valid_message` coroutines without
`return_exceptions`, so the first exception raised by any of them propagates
out of the gather; this is modelled by sequential handling in the `Except`
monad. -/
def handle_batch (resolveSchema : String → Option AvroSchema)
    (readDatum : Option AvroSchema → List Nat → ReadOutcome)
    (messages : List KafkaMsg) (st : ConsumerSt) : Except PyExc ConsumerSt :=
  match messages with
  | [] => .ok st
  | m :: rest =>
    match handle_valid_message resolveSchema readDatum m st with
    | .error e => .error e
    | .ok st1 => handle_batch resolveSchema readDatum rest st1

/-- Outcome of the `self.consumer.consume(...)` call on an open consumer: a
batch of messages (entries may be `None`), or a raised `KafkaException`
wrapping a Kafka error. -/
inductive PullOutcome
  | batch (messages : List (Option KafkaMsg))
  | kafkaError (err : KafkaErr)
deriving DecidableEq, Repr

/-- Model of `_consume_messages`.  Calling `consume` on a closed
confluent_kafka consumer raises `RuntimeError` (the source comments on this:
the fatal-error path closes the consumer and relies on the next consume
attempt to exit); the `except RuntimeError` clause logs at critical severity
and calls `sys.exit(1)`.  A `KafkaException` raised by `consume` is handled
by `__handle_kafka_error`.  Otherwise the batch is filtered and handled; an
exception from message handling outside `KafkaException`/`RuntimeError`
(e.g. `AttributeError`) propagates out of `_consume_messages`. -/
def consume_messages (resolveSchema : String → Option AvroSchema)
    (readDatum : Option AvroSchema → List Nat → ReadOutcome)
    (pull : PullOutcome) (st : ConsumerSt) : Except PyExc ConsumerSt :=
  if st.closed then .error (.systemExit 1)
  else
    match pull with
    | .kafkaError err => .ok (handle_kafka_error err st)
    | .batch messages =>
      let (valid, st1) := filter_valid_messages messages st
      match handle_batch resolveSchema readDatum valid st1 with
      | .error .runtimeError => .error (.systemExit 1)
      | .error e => .error e
      | .ok st2 => .ok st2

/-! ## Report generator (`report_generator.py`) and network configuration
(`network_configuration.py`) -/

/-- The key order used by `sorted` on dict items: compare the keys (dict keys
are distinct, so the tuple comparison never reaches the values). -/
def itemKeyLE (a b : String × Bool) : Prop := a.1 ≤ b.1

instance : DecidableRel itemKeyLE := fun a b =>
  inferInstanceAs (Decidable (a.1 ≤ b.1))

instance : IsTotal (String × Bool) itemKeyLE :=
  ⟨fun a b => le_total a.1 b.1⟩

instance : IsTrans (String × Bool) itemKeyLE :=
  ⟨fun _ _ _ h h2 => le_trans h h2⟩

/-- The line `cached_dict = dict(sorted(fdn_to_pm_counter_status.items()))` of
`__get_report_data`: a key-sorted copy of the status map.  Python `sorted` is
a stable sort; it is modelled by insertion sort on the key order, which agrees
with it on every list with distinct keys. -/
def snapshotStatusMap (m : List (String × Bool)) : List (String × Bool) :=
  List.insertionSort itemKeyLE m

/-- The loop `for key in fdn_to_pm_counter_status.keys():
fdn_to_pm_counter_status[key] = False`: same keys in the same order, every
status `False`. -/
def resetStatusMap (m : List (String × Bool)) : List (String × Bool) :=
  m.map (fun p => (p.1, false))

/-- The Watch-Set Tracker operation realized by the first lines of
`__get_report_data` (snapshot, then reset when `clear_data_upon_usage` is
set): returns the sorted snapshot together with the status map left behind. -/
def snapshot_and_maybe_reset (m : List (String × Bool)) (reset : Bool) :
    List (String × Bool) × List (String × Bool) :=
  (snapshotStatusMap m, if reset then resetStatusMap m else m)

/-- The dictionary `{"id": source_id, attribute: current_attribute}` returned
by `get_attribute_for_source_id`. -/
structure AttrEntry where
  id : String
  value : Option String
deriving DecidableEq, Repr

/-- Model of `get_attribute_for_source_id`: the attribute read (including its
internal catch-all error handling, which yields `None` on any failure) is the
oracle `fetchAttr`; the result dictionary always carries the source id and the
value-or-`None`. -/
def get_attribute_for_source_id (fetchAttr : String → Option String)
    (sourceId : String) : AttrEntry :=
  ⟨sourceId, fetchAttr sourceId⟩

/-- Model of `get_attributes_for_source_ids`: one
`get_attribute_for_source_id` task per source id; `asyncio.gather` returns
their results in task order. -/
def get_attributes_for_source_ids (fetchAttr : String → Option String)
    (listOfSourceIds : List String) : List AttrEntry :=
  listOfSourceIds.map (get_attribute_for_source_id fetchAttr)

/-- Rendering of `{attribute or 'UNKNOWN'}`: a `None` or empty attribute value
renders as `"UNKNOWN"`. -/
def renderAttr : Option String → String
  | Option.none => "UNKNOWN"
  | Option.some s => if s = "" then "UNKNOWN" else s

/-- One line of the report:
`f"fdn={fdn}; {self.attribute}={attribute or 'UNKNOWN'}; countersCollected={counters}"`
(Python renders the boolean as `True`/`False`). -/
def reportRow (attributeName fdn : String) (value : Option String)
    (counters : Bool) : String :=
  "fdn=" ++ fdn ++ "; " ++ attributeName ++ "=" ++ renderAttr value ++
    "; countersCollected=" ++ (if counters then "True" else "False")

/-- The report loop of `__get_report_data`: for each attribute entry, look the
source id up in the snapshot (`cached_dict[fdn]`, raising `KeyError` when
absent) and append the rendered row. -/
def reportRows (attributeName : String) (cachedDict : List (String × Bool)) :
    List AttrEntry → Except PyExc (List String)
  | [] => .ok []
  | e :: rest =>
    match cachedDict.lookup e.id with
    | Option.none => .error .keyError
    | Option.some counters =>
      match reportRows attributeName cachedDict rest with
      | .error exc => .error exc
      | .ok rows => .ok (reportRow attributeName e.id e.value counters :: rows)

/-- Model of `__get_report_data`: snapshot the status map (resetting it when
`clear_data_upon_usage` is set), fetch one attribute per snapshot key, and
render one row per returned entry.  Returns the rows (or a raised exception)
together with the status map left behind. -/
def get_report_data (fetchAttr : String → Option String)
    (attributeName : String) (clearDataUponUsage : Bool)
    (m : List (String × Bool)) :
    Except PyExc (List String) × List (String × Bool) :=
  let cachedDict := snapshotStatusMap m
  let m1 := if clearDataUponUsage then resetStatusMap m else m
  let entries := get_attributes_for_source_ids fetchAttr (cachedDict.map Prod.fst)
  (reportRows attributeName cachedDict entries, m1)

/-- Model of `__log_message`, reduced to its data: `countOf` of `True` over
the live status map values is taken first, then `__get_report_data` runs; the
summary line states `counters_collected` out of `len(report_data)`.  Returns
the summary pair, the rows and the new status map. -/
def log_message (fetchAttr : String → Option String) (attributeName : String)
    (clearDataUponUsage : Bool) (m : List (String × Bool)) :
    Except PyExc ((Nat × Nat) × List String × List (String × Bool)) :=
  let countersCollected := (m.map Prod.snd).count true
  match get_report_data fetchAttr attributeName clearDataUponUsage m with
  | (.error e, _) => .error e
  | (.ok rows, m1) => .ok ((countersCollected, rows.length), rows, m1)

/-! ## Helper lemmas on association lists -/

theorem lookup_append_of_some {α β : Type} [BEq α] {m : List (α × β)} (l : List (α × β))
    {k : α} {v : β} (h : m.lookup k = some v) : (m ++ l).lookup k = some v := by
  induction m with
  | nil => simp [List.lookup] at h
  | cons p rest ih =>
    simp only [List.lookup, List.cons_append] at h ⊢
    cases hk : k == p.1 with
    | true => simpa [hk] using h
    | false =>
      simp only [hk] at h ⊢
      exact ih h

theorem lookup_append_of_none {α β : Type} [BEq α] {m : List (α × β)} (l : List (α × β))
    {k : α} (h : m.lookup k = none) : (m ++ l).lookup k = l.lookup k := by
  induction m with
  | nil => simp
  | cons p rest ih =>
    simp only [List.lookup, List.cons_append] at h ⊢
    cases hk : k == p.1 with
    | true => simp [hk] at h
    | false =>
      simp only [hk] at h ⊢
      exact ih h

theorem lookup_self_of_nodup {α β : Type} [BEq α] [LawfulBEq α]
    {m : List (α × β)} (hnd : (m.map Prod.fst).Nodup) :
    ∀ p ∈ m, m.lookup p.1 = some p.2 := by
  induction m with
  | nil => intro p hp; simp at hp
  | cons q rest ih =>
    intro p hp
    simp only [List.map_cons, List.nodup_cons] at hnd
    rcases List.mem_cons.mp hp with rfl | hmem
    · simp [List.lookup]
    · have hne : p.1 ≠ q.1 := by
        intro he
        exact hnd.1 (he ▸ List.mem_map_of_mem Prod.fst hmem)
      simp only [List.lookup, beq_eq_false_iff_ne.mpr hne]
      exact ih hnd.2 p hmem

theorem lookup_map_update_self (m : List (String × Bool)) (k : String) (v : Bool)
    (h : k ∈ m.map Prod.fst) :
    (m.map (fun p => if p.1 = k then (p.1, v) else p)).lookup k = some v := by
  induction m with
  | nil => simp at h
  | cons p rest ih =>
    by_cases hk : p.1 = k
    · rw [List.map_cons, if_pos hk]
      have hb : (k == p.1) = true := by simp [hk]
      simp [List.lookup, hb]
    · rw [List.map_cons, if_neg hk]
      have hb : (k == p.1) = false := by
        simp only [beq_eq_false_iff_ne, ne_eq]
        exact fun he => hk he.symm
      simp only [List.lookup, hb]
      apply ih
      rw [List.map_cons] at h
      rcases List.mem_cons.mp h with he | hmem
      · exact absurd he.symm hk
      · exact hmem

theorem lookup_of_not_mem_keys (m : List (String × Bool)) (k : String)
    (h : k ∉ m.map Prod.fst) : m.lookup k = none := by
  induction m with
  | nil => simp [List.lookup]
  | cons p rest ih =>
    have hne : (k == p.1) = false := by
      simp only [beq_eq_false_iff_ne, ne_eq]
      intro he
      exact h (by simp [he])
    simp only [List.lookup, hne]
    exact ih (fun hm => h (by simp [hm]))

theorem lookup_dictSet_self (m : List (String × Bool)) (k : String) (v : Bool) :
    (dictSet m k v).lookup k = some v := by
  unfold dictSet
  split
  · rename_i hc
    exact lookup_map_update_self m k v (by simpa using hc)
  · rename_i hc
    have hnone : m.lookup k = none :=
      lookup_of_not_mem_keys m k (by simpa using hc)
    rw [lookup_append_of_none _ hnone]
    simp [List.lookup]

/-! ## Claim theorems -/

/-- C6: a snapshot of the watch-set status map is a deterministic,
identifier-sorted copy of the current map (sorted by identifier and a
permutation of the map entries); snapshotting with reset sets every status
back to false, so an immediately following snapshot without reset is
all-false. -/
theorem c6_snapshot_sorted_reset (m : List (String × Bool)) (reset : Bool) :
    List.Sorted itemKeyLE (snapshot_and_maybe_reset m reset).1 ∧
    (snapshot_and_maybe_reset m reset).1.Perm m ∧
    (∀ p ∈ (snapshot_and_maybe_reset (snapshot_and_maybe_reset m true).2 false).1,
      p.2 = false) := by
  refine ⟨List.sorted_insertionSort itemKeyLE m, List.perm_insertionSort itemKeyLE m, ?_⟩
  intro p hp
  have hmem : p ∈ resetStatusMap m := by
    have := (List.perm_insertionSort itemKeyLE (resetStatusMap m)).mem_iff.mp hp
    simpa [snapshot_and_maybe_reset, snapshotStatusMap] using this
  rcases List.mem_map.mp hmem with ⟨q, _, rfl⟩
  rfl

/-- Witness for C6 at a concrete map: the snapshot is sorted and a
permutation of the map, and the entry of the post-reset snapshot is false. -/
theorem c6_witness :
    List.Sorted itemKeyLE (snapshot_and_maybe_reset [("A", true)] true).1 ∧
    List.Perm (snapshot_and_maybe_reset [("A", true)] true).1 [("A", true)] ∧
    (("A", false) : String × Bool).2 = false :=
  ⟨(c6_snapshot_sorted_reset [("A", true)] true).1,
   (c6_snapshot_sorted_reset [("A", true)] true).2.1,
   (c6_snapshot_sorted_reset [("A", true)] true).2.2 ("A", false) (by decide)⟩

/-- C7: marking an identifier that is not in the watched set leaves the
status map entirely unchanged (and raises nothing: the operation is total);
marking a watched identifier whose decoded message carries counter data sets
that identifier to true. -/
theorem c7_set_counter_status (d : AvroRecord) (prefixedFdns : List String)
    (urn : String) (m : List (String × Bool)) :
    (urn ∉ prefixedFdns → set_counter_status d prefixedFdns urn m = m) ∧
    (urn ∈ prefixedFdns → d.pmCounters ≠ Option.none →
      (set_counter_status d prefixedFdns urn m).lookup urn = some true) := by
  constructor
  · intro h
    simp [set_counter_status, h]
  · intro hmem hpm
    simp only [set_counter_status, if_pos hmem, if_pos hpm]
    exact lookup_dictSet_self m urn true

/-- Witness for C7 at concrete inputs: the identifier `v` is not watched and
the map is unchanged; the identifier `u` is watched, the message carries
counters, and `u` is set to true. -/
theorem c7_witness :
    set_counter_status ⟨Option.some "p", Option.some "f", Option.some 1⟩
        ["u"] "v" [("u", false)] = [("u", false)] ∧
    (set_counter_status ⟨Option.some "p", Option.some "f", Option.some 1⟩
        ["u"] "u" [("u", false)]).lookup "u" = some true :=
  ⟨(c7_set_counter_status ⟨Option.some "p", Option.some "f", Option.some 1⟩
      ["u"] "v" [("u", false)]).1 (by decide),
   (c7_set_counter_status ⟨Option.some "p", Option.some "f", Option.some 1⟩
      ["u"] "u" [("u", false)]).2 (by decide) (by decide)⟩

theorem lookup_tail_of_none {α β : Type} [BEq α] {m : List (α × β)} {k : α}
    (h : m.lookup k = none) : (m.drop 1).lookup k = none := by
  cases m with
  | nil => simp
  | cons p rest =>
    simp only [List.lookup] at h
    cases hk : k == p.1 with
    | true => simp [hk] at h
    | false =>
      simp only [hk] at h
      simpa using h

/-- C10 (amended): the schema resolver memoizes failed lookups in its bounded
LRU cache.  A call whose key is absent and whose registry request fails (HTTP
error or missing token) returns `None`, stores `None` in the cache under the
argument key — also when the insertion evicts the least recently used entry —
and counts one request; and whenever the key is still cached with `None`, a
call with the same arguments returns that cached `None` without issuing a
registry request (the request count is unchanged) and keeps the entry cached
at the most-recently-used end.  The memoization only lasts while the entry
survives LRU eviction: `c10_counterexample` shows that 128 distinct
interleaved keys evict it and the fetch is then reissued. -/
theorem c10_bounded_failed_lookup_memoized (registryOutcome : Nat → FetchResult)
    (key : SchemaKey) (st : SchemaCacheState)
    (hmiss : st.cache.lookup key = none)
    (hfail : registryOutcome st.requests = .httpStatusError ∨
      registryOutcome st.requests = .missingTokenError) :
    (get_schema registryOutcome key st).1 = none ∧
    (get_schema registryOutcome key st).2.cache.lookup key = some none ∧
    (get_schema registryOutcome key st).2.requests = st.requests + 1 ∧
    ∀ st2 : SchemaCacheState, st2.cache.lookup key = some none →
      get_schema registryOutcome key st2 =
        (none, ⟨st2.cache.filter (fun p => p.1 != key) ++ [(key, none)],
          st2.requests⟩) := by
  have hbody : (get_schema_body (registryOutcome st.requests)).1 = none := by
    rcases hfail with h | h <;> simp [h, get_schema_body]
  refine ⟨?_, ?_, ?_, ?_⟩
  · unfold get_schema
    simp [hmiss, hbody]
  · unfold get_schema
    simp only [hmiss, hbody]
    split
    · rename_i hlen
      have hlen2 : 1 ≤ st.cache.length := by
        simp only [List.length_append, List.length_cons, List.length_nil,
          ALRU_MAXSIZE, gt_iff_lt] at hlen
        omega
      rw [List.drop_append_of_le_length hlen2]
      rw [lookup_append_of_none _ (lookup_tail_of_none hmiss)]
      simp [List.lookup]
    · rw [lookup_append_of_none _ hmiss]
      simp [List.lookup]
  · unfold get_schema
    simp [hmiss, hbody]
  · intro st2 h2
    unfold get_schema
    simp [h2]

/-- Witness for C10 at concrete inputs: a registry that fails the first
request; the failing call caches `None` and counts one request, and a state
holding the cached `None` serves the repeated call without a new request. -/
theorem c10_witness :
    (get_schema (fun _ => .httpStatusError) ⟨"iam", 0, "sch-1"⟩ ⟨[], 0⟩).1 = none ∧
    (get_schema (fun _ => .httpStatusError) ⟨"iam", 0, "sch-1"⟩ ⟨[], 0⟩).2.cache.lookup
        ⟨"iam", 0, "sch-1"⟩ = some none ∧
    (get_schema (fun _ => .httpStatusError) ⟨"iam", 0, "sch-1"⟩ ⟨[], 0⟩).2.requests = 0 + 1 ∧
    get_schema (fun _ => .httpStatusError) ⟨"iam", 0, "sch-1"⟩
        ⟨[(⟨"iam", 0, "sch-1"⟩, Option.none)], 5⟩ =
      (none, ⟨[((⟨"iam", 0, "sch-1"⟩ : SchemaKey), (Option.none : Option AvroSchema))].filter
          (fun p => p.1 != (⟨"iam", 0, "sch-1"⟩ : SchemaKey)) ++
        [(⟨"iam", 0, "sch-1"⟩, Option.none)], 5⟩) := by
  have h := c10_bounded_failed_lookup_memoized (fun _ => .httpStatusError)
    ⟨"iam", 0, "sch-1"⟩ ⟨[], 0⟩ rfl (Or.inl rfl)
  exact ⟨h.1, h.2.1, h.2.2.1,
    h.2.2.2 ⟨[(⟨"iam", 0, "sch-1"⟩, Option.none)], 5⟩ (by decide)⟩

/-- The cache state after the initial failing call for the studied key. -/
def c10CacheAfterFirst : SchemaCacheState :=
  (get_schema (fun _ => .httpStatusError) ⟨"", 0, "s"⟩ ⟨[], 0⟩).2

/-- 128 further keys, all distinct from the studied key and each other
(distinct client ids). -/
def c10OtherKeys : List SchemaKey :=
  (List.range ALRU_MAXSIZE).map (fun i => ⟨"", i + 1, "s"⟩)

/-- The cache state after the 128 interleaved calls with the other keys. -/
def c10CacheAfterInterleaved : SchemaCacheState :=
  runSchemaCalls (fun _ => .httpStatusError) c10OtherKeys c10CacheAfterFirst

set_option maxRecDepth 40000 in
/-- Counterexample to C10 as stated: the first call for the key fails and
returns `None` (caching it), but after 128 calls with distinct other keys the
LRU eviction has dropped the entry (the lookup misses), and the repeated call
with the same arguments issues another registry request — the request count
rises from 129 to 130 — instead of returning a cached `None` with no network
traffic for the rest of the process lifetime. -/
theorem c10_counterexample :
    (get_schema (fun _ => .httpStatusError) ⟨"", 0, "s"⟩ ⟨[], 0⟩).1 = none ∧
    c10CacheAfterInterleaved.cache.lookup ⟨"", 0, "s"⟩ = none ∧
    c10CacheAfterInterleaved.requests = 129 ∧
    (get_schema (fun _ => .httpStatusError) ⟨"", 0, "s"⟩
        c10CacheAfterInterleaved).2.requests = 130 := by
  refine ⟨rfl, ?_, ?_, ?_⟩ <;> decide

/-- C8: a valid message without a schema-identifier header is counted as
consumed, not counted as processed, and produces a warning; a valid message
with a schema identifier whose moType header is not the tracked type is
counted as consumed and not as processed (the handler stops after storing the
resolved schema). -/
theorem c8_consumed_not_processed (resolveSchema : String → Option AvroSchema)
    (readDatum : Option AvroSchema → List Nat → ReadOutcome)
    (message : KafkaMsg) (st : ConsumerSt) :
    (strOptFalsy (extract_schema_id (parse_message_headers message.headers)) = true →
      handle_valid_message resolveSchema readDatum message st =
        .ok { st with
          consumed := st.consumed + 1
          log := st.log ++
            [⟨.warning, "Received a message without a schema ID in its headers"⟩] }) ∧
    (∀ sid, extract_schema_id (parse_message_headers message.headers) = some sid →
      strOptFalsy (some sid) = false →
      is_relevant_motype (parse_message_headers message.headers) = false →
      handle_valid_message resolveSchema readDatum message st =
        .ok { st with consumed := st.consumed + 1, schema := resolveSchema sid }) := by
  constructor
  · intro h
    simp [handle_valid_message, h]
  · intro sid hsid hfalsy hmo
    simp [handle_valid_message, hsid, hfalsy, hmo]

/-- Witness for C8: a message with no schema ID header warns and bumps only
the consumed counter; a message with a schema ID but an unmatched moType bumps
only the consumed counter. -/
theorem c8_witness :
    handle_valid_message (fun _ => Option.none) (fun _ _ => .otherError)
        ⟨[(.str "moType", .str "NRCellDU_GNBDU")], [], Option.none⟩
        ⟨false, 3, 2, [], [], Option.none, []⟩ =
      .ok ⟨false, 4, 2, [], [], Option.none,
        [⟨.warning, "Received a message without a schema ID in its headers"⟩]⟩ ∧
    handle_valid_message (fun _ => Option.none) (fun _ _ => .otherError)
        ⟨[(.str "schemaID", .bytes "sch-1"), (.str "moType", .str "OTHER")],
          [], Option.none⟩
        ⟨false, 3, 2, [], [], Option.some ⟨"S"⟩, []⟩ =
      .ok ⟨false, 4, 2, [], [], Option.none, []⟩ :=
  ⟨(c8_consumed_not_processed (fun _ => Option.none) (fun _ _ => .otherError)
      ⟨[(.str "moType", .str "NRCellDU_GNBDU")], [], Option.none⟩
      ⟨false, 3, 2, [], [], Option.none, []⟩).1 rfl,
   (c8_consumed_not_processed (fun _ => Option.none) (fun _ _ => .otherError)
      ⟨[(.str "schemaID", .bytes "sch-1"), (.str "moType", .str "OTHER")],
        [], Option.none⟩
      ⟨false, 3, 2, [], [], Option.some ⟨"S"⟩, []⟩).2 "sch-1" rfl rfl rfl⟩

/-- C3: a fatal transport error during one pull makes the error handler close
the subscription without exiting (the consume call returns normally with the
consumer closed and a critical log line); every next consume attempt against
the closed consumer terminates with exit code 1; a non-fatal transport error
only appends an error log line and leaves the state otherwise unchanged, so
the loop continues. -/
theorem c3_fatal_error_closes_then_exits (resolveSchema : String → Option AvroSchema)
    (readDatum : Option AvroSchema → List Nat → ReadOutcome)
    (st : ConsumerSt) (hopen : st.closed = false) :
    (consume_messages resolveSchema readDatum (.kafkaError ⟨true⟩) st =
      .ok { st with
        closed := true
        log := st.log ++ [⟨.critical,
          "Fatal error occurred while consuming messages from Kafka. App will close shortly. "⟩] }) ∧
    (∀ (resolveSchema2 : String → Option AvroSchema)
        (readDatum2 : Option AvroSchema → List Nat → ReadOutcome) (pull : PullOutcome),
      consume_messages resolveSchema2 readDatum2 pull
          { st with
            closed := true
            log := st.log ++ [⟨.critical,
              "Fatal error occurred while consuming messages from Kafka. App will close shortly. "⟩] } =
        .error (.systemExit 1)) ∧
    (consume_messages resolveSchema readDatum (.kafkaError ⟨false⟩) st =
      .ok { st with
        log := st.log ++ [⟨.error, "An error occurred while interacting with Kafka: "⟩] }) := by
  refine ⟨?_, ?_, ?_⟩
  · simp [consume_messages, hopen, handle_kafka_error]
  · intro resolveSchema2 readDatum2 pull
    simp [consume_messages]
  · simp [consume_messages, hopen, handle_kafka_error]

/-- Witness for C3 at a concrete open consumer state: the fatal pull closes
the consumer, the next pull exits with code 1, and a non-fatal pull only
logs. -/
theorem c3_witness :
    (consume_messages (fun _ => Option.none) (fun _ _ => .otherError)
        (.kafkaError ⟨true⟩) ⟨false, 0, 0, [], [], Option.none, []⟩ =
      .ok ⟨true, 0, 0, [], [], Option.none,
        [⟨.critical,
          "Fatal error occurred while consuming messages from Kafka. App will close shortly. "⟩]⟩) ∧
    (consume_messages (fun _ => Option.none) (fun _ _ => .otherError)
        (.batch []) ⟨true, 0, 0, [], [], Option.none,
          [⟨.critical,
            "Fatal error occurred while consuming messages from Kafka. App will close shortly. "⟩]⟩ =
      .error (.systemExit 1)) ∧
    (consume_messages (fun _ => Option.none) (fun _ _ => .otherError)
        (.kafkaError ⟨false⟩) ⟨false, 0, 0, [], [], Option.none, []⟩ =
      .ok ⟨false, 0, 0, [], [], Option.none,
        [⟨.error, "An error occurred while interacting with Kafka: "⟩]⟩) := by
  have h := c3_fatal_error_closes_then_exits (fun _ => Option.none)
    (fun _ _ => .otherError) ⟨false, 0, 0, [], [], Option.none, []⟩ rfl
  exact ⟨h.1, h.2.1 (fun _ => Option.none) (fun _ _ => .otherError) (.batch []), h.2.2⟩

/-- C1: when Avro deserialization fails with a type mismatch or schema error,
`deserialize_message` does log at error severity with the schema identifier
and return `None` — but the caller `__process_message` then calls `.get` on
that `None`, so the per-message handler raises `AttributeError` instead of
skipping the message, and the exception propagates out of
`_consume_messages` (whose except clauses cover only `KafkaException` and
`RuntimeError`), crashing the consume loop.  This refutes the skip-and-
continue half of the claim. -/
theorem c1_decode_error_crashes_pipeline
    (resolveSchema : String → Option AvroSchema)
    (readDatum : Option AvroSchema → List Nat → ReadOutcome)
    (message : KafkaMsg) (st : ConsumerSt) (sid : String)
    (herr : message.error = Option.none)
    (hsid : extract_schema_id (parse_message_headers message.headers) = some sid)
    (hne : strOptFalsy (some sid) = false)
    (hmo : is_relevant_motype (parse_message_headers message.headers) = true)
    (hres : resolveSchema sid = st.schema)
    (hopen : st.closed = false)
    (hout : readDatum st.schema (message.value.drop AVRO_MAGIC_BYTE_COUNT) = .avroTypeError ∨
      readDatum st.schema (message.value.drop AVRO_MAGIC_BYTE_COUNT) = .avroSchemaError) :
    (∃ e : LogEntry,
      deserialize_message readDatum (message.value.drop AVRO_MAGIC_BYTE_COUNT)
          st.schema sid st.log = (.ok Option.none, st.log ++ [e]) ∧
      e.level = .error ∧ ∃ a b, e.msg = a ++ sid ++ b) ∧
    process_message readDatum message.value sid st = .error .attributeError ∧
    consume_messages resolveSchema readDatum (.batch [Option.some message]) st =
      .error .attributeError := by
  have hproc : ∀ st3 : ConsumerSt, st3.schema = st.schema →
      process_message readDatum message.value sid st3 = .error .attributeError := by
    intro st3 h3
    rcases hout with h | h <;>
      simp [process_message, deserialize_message, h3, h]
  have hhv : handle_valid_message resolveSchema readDatum message st =
      .error .attributeError := by
    simp only [handle_valid_message, hsid, hne, hmo, Bool.false_eq_true, if_false,
      if_true, Option.getD_some]
    exact hproc _ (by simp [hres])
  refine ⟨?_, hproc st rfl, ?_⟩
  · rcases hout with h | h
    · exact ⟨⟨.error, "Avro type error for schema ID " ++ sid ++ ": "⟩,
        by simp [deserialize_message, h], rfl,
        "Avro type error for schema ID ", ": ", rfl⟩
    · exact ⟨⟨.error, "Avro schema error for schema ID " ++ sid ++ ": "⟩,
        by simp [deserialize_message, h], rfl,
        "Avro schema error for schema ID ", ": ", rfl⟩
  · have hfilter : filter_valid_messages [Option.some message] st = ([message], st) := by
      simp [filter_valid_messages, herr]
    simp [consume_messages, hopen, hfilter, handle_batch, hhv]

/-- Witness for C1 at a concrete message, consumer state and Avro behavior. -/
theorem c1_witness :
    (∃ e : LogEntry,
      deserialize_message (fun _ _ => .avroTypeError) ([9, 9, 9, 9, 9, 7].drop
          AVRO_MAGIC_BYTE_COUNT) (Option.some ⟨"S"⟩) "sch-1" [] =
        (.ok Option.none, [] ++ [e]) ∧
      e.level = .error ∧ ∃ a b, e.msg = a ++ "sch-1" ++ b) ∧
    process_message (fun _ _ => .avroTypeError) [9, 9, 9, 9, 9, 7] "sch-1"
        ⟨false, 0, 0, [], [], Option.some ⟨"S"⟩, []⟩ = .error .attributeError ∧
    consume_messages (fun _ => Option.some ⟨"S"⟩) (fun _ _ => .avroTypeError)
        (.batch [Option.some ⟨[(.str "schemaID", .bytes "sch-1"),
          (.str "moType", .str "NRCellDU_GNBDU")], [9, 9, 9, 9, 9, 7], Option.none⟩])
        ⟨false, 0, 0, [], [], Option.some ⟨"S"⟩, []⟩ = .error .attributeError :=
  c1_decode_error_crashes_pipeline (fun _ => Option.some ⟨"S"⟩)
    (fun _ _ => .avroTypeError)
    ⟨[(.str "schemaID", .bytes "sch-1"), (.str "moType", .str "NRCellDU_GNBDU")],
      [9, 9, 9, 9, 9, 7], Option.none⟩
    ⟨false, 0, 0, [], [], Option.some ⟨"S"⟩, []⟩ "sch-1"
    rfl (by decide) (by decide) (by decide) rfl rfl (Or.inl rfl)

/-- C2: when the schema registry lookup failed non-fatally (`get_schema`
returned `None`), the consumer stores `self.schema = None` and still passes
it to `deserialize_message`.  On older Avro versions `reader.read` raises
`AttributeError` from within (not caught by the Avro-specific except
clauses); on newer versions it raises `IONotReadyException`, an
`AvroException`, which is caught and turned into `None` — and then the caller
raises `AttributeError` on `None.get`.  Under either library behavior the
per-message handler raises instead of skipping, and the exception escapes
`_consume_messages`, so the message is not skipped as undecodable. -/
theorem c2_unknown_schema_crashes_pipeline
    (resolveSchema : String → Option AvroSchema)
    (readDatum : Option AvroSchema → List Nat → ReadOutcome)
    (message : KafkaMsg) (st : ConsumerSt) (sid : String)
    (herr : message.error = Option.none)
    (hsid : extract_schema_id (parse_message_headers message.headers) = some sid)
    (hne : strOptFalsy (some sid) = false)
    (hmo : is_relevant_motype (parse_message_headers message.headers) = true)
    (hres : resolveSchema sid = Option.none)
    (hopen : st.closed = false)
    (hread : readDatum Option.none (message.value.drop AVRO_MAGIC_BYTE_COUNT) = .otherError ∨
      readDatum Option.none (message.value.drop AVRO_MAGIC_BYTE_COUNT) = .avroSchemaError) :
    handle_valid_message resolveSchema readDatum message st = .error .attributeError ∧
    consume_messages resolveSchema readDatum (.batch [Option.some message]) st =
      .error .attributeError := by
  have hproc : ∀ st3 : ConsumerSt, st3.schema = Option.none →
      process_message readDatum message.value sid st3 = .error .attributeError := by
    intro st3 h3
    rcases hread with h | h <;>
      simp [process_message, deserialize_message, h3, h]
  have hhv : handle_valid_message resolveSchema readDatum message st =
      .error .attributeError := by
    simp only [handle_valid_message, hsid, hne, hmo, Bool.false_eq_true, if_false,
      if_true, Option.getD_some]
    exact hproc _ (by simp [hres])
  refine ⟨hhv, ?_⟩
  have hfilter : filter_valid_messages [Option.some message] st = ([message], st) := by
    simp [filter_valid_messages, herr]
  simp [consume_messages, hopen, hfilter, handle_batch, hhv]

/-- Witness for C2 at a concrete message whose schema id is unknown to the
registry (the resolver yields `None`), under both modelled Avro behaviors. -/
theorem c2_witness :
    (handle_valid_message (fun _ => Option.none) (fun _ _ => .otherError)
        ⟨[(.str "schemaID", .bytes "sch-unknown"),
          (.str "moType", .str "NRCellDU_GNBDU")], [9, 9, 9, 9, 9, 7], Option.none⟩
        ⟨false, 0, 0, [], [], Option.none, []⟩ = .error .attributeError ∧
      consume_messages (fun _ => Option.none) (fun _ _ => .otherError)
        (.batch [Option.some ⟨[(.str "schemaID", .bytes "sch-unknown"),
          (.str "moType", .str "NRCellDU_GNBDU")], [9, 9, 9, 9, 9, 7], Option.none⟩])
        ⟨false, 0, 0, [], [], Option.none, []⟩ = .error .attributeError) ∧
    (handle_valid_message (fun _ => Option.none) (fun _ _ => .avroSchemaError)
        ⟨[(.str "schemaID", .bytes "sch-unknown"),
          (.str "moType", .str "NRCellDU_GNBDU")], [9, 9, 9, 9, 9, 7], Option.none⟩
        ⟨false, 0, 0, [], [], Option.none, []⟩ = .error .attributeError ∧
      consume_messages (fun _ => Option.none) (fun _ _ => .avroSchemaError)
        (.batch [Option.some ⟨[(.str "schemaID", .bytes "sch-unknown"),
          (.str "moType", .str "NRCellDU_GNBDU")], [9, 9, 9, 9, 9, 7], Option.none⟩])
        ⟨false, 0, 0, [], [], Option.none, []⟩ = .error .attributeError) :=
  ⟨c2_unknown_schema_crashes_pipeline (fun _ => Option.none) (fun _ _ => .otherError)
    ⟨[(.str "schemaID", .bytes "sch-unknown"), (.str "moType", .str "NRCellDU_GNBDU")],
      [9, 9, 9, 9, 9, 7], Option.none⟩
    ⟨false, 0, 0, [], [], Option.none, []⟩ "sch-unknown"
    rfl (by decide) (by decide) (by decide) rfl rfl (Or.inl rfl),
   c2_unknown_schema_crashes_pipeline (fun _ => Option.none) (fun _ _ => .avroSchemaError)
    ⟨[(.str "schemaID", .bytes "sch-unknown"), (.str "moType", .str "NRCellDU_GNBDU")],
      [9, 9, 9, 9, 9, 7], Option.none⟩
    ⟨false, 0, 0, [], [], Option.none, []⟩ "sch-unknown"
    rfl (by decide) (by decide) (by decide) rfl rfl (Or.inr rfl)⟩

theorem dataJobsAttemptLoop_success (attemptOutcome : Nat → AttemptResult)
    (maxRetries retryDelay : Nat) (jobs : List DataJob) :
    ∀ (n attempt : Nat) (sleeps : List Nat),
      attempt + n < maxRetries →
      (∀ i, attempt ≤ i → i < attempt + n → failureCause (attemptOutcome i) ≠ none) →
      attemptOutcome (attempt + n) = .success jobs →
      dataJobsAttemptLoop attemptOutcome maxRetries retryDelay attempt sleeps =
        (.ok (some jobs),
         sleeps ++ (List.range' attempt n).map (fun i => retryDelay * 2 ^ i)) := by
  intro n
  induction n with
  | zero =>
    intro attempt sleeps hlt _ hsucc
    rw [dataJobsAttemptLoop]
    simp only [Nat.add_zero] at hlt hsucc
    simp [hlt, hsucc]
  | succ n ih =>
    intro attempt sleeps hlt hfail hsucc
    have hcurfail : failureCause (attemptOutcome attempt) ≠ none :=
      hfail attempt (Nat.le_refl _) (by omega)
    have hmid : attempt < maxRetries - 1 := by omega
    have hrec := ih (attempt + 1) (sleeps ++ [retryDelay * 2 ^ attempt])
      (by omega)
      (fun i h1 h2 => hfail i (by omega) (by omega))
      (by rw [show attempt + 1 + n = attempt + (n + 1) by omega]; exact hsucc)
    rw [dataJobsAttemptLoop]
    have hlt2 : attempt < maxRetries := by omega
    cases hcur : attemptOutcome attempt with
    | success l => exact absurd (by simp [failureCause, hcur]) hcurfail
    | httpStatusError =>
      simp only [hlt2, dif_pos, hcur, if_pos hmid]
      rw [hrec, List.range'_succ]
      simp
    | missingTokenError =>
      simp only [hlt2, dif_pos, hcur, if_pos hmid]
      rw [hrec, List.range'_succ]
      simp

theorem dataJobsAttemptLoop_failure (attemptOutcome : Nat → AttemptResult)
    (maxRetries retryDelay : Nat) :
    ∀ (n attempt : Nat) (sleeps : List Nat),
      attempt + n + 1 = maxRetries →
      (∀ i, attempt ≤ i → i < maxRetries → failureCause (attemptOutcome i) ≠ none) →
      ∃ c, failureCause (attemptOutcome (maxRetries - 1)) = some c ∧
        dataJobsAttemptLoop attemptOutcome maxRetries retryDelay attempt sleeps =
          (.error (.dataManagementError c),
           sleeps ++ (List.range' attempt n).map (fun i => retryDelay * 2 ^ i)) := by
  intro n
  induction n with
  | zero =>
    intro attempt sleeps hmax hfail
    have hlast : attempt = maxRetries - 1 := by omega
    have hlt : attempt < maxRetries := by omega
    have hnotmid : ¬ attempt < maxRetries - 1 := by omega
    have hcurfail : failureCause (attemptOutcome attempt) ≠ none :=
      hfail attempt (Nat.le_refl _) hlt
    cases hcur : attemptOutcome attempt with
    | success l => exact absurd (by simp [failureCause, hcur]) hcurfail
    | httpStatusError =>
      refine ⟨.http, by rw [← hlast, hcur]; rfl, ?_⟩
      rw [dataJobsAttemptLoop]
      simp [hlt, hcur, hnotmid]
    | missingTokenError =>
      refine ⟨.token, by rw [← hlast, hcur]; rfl, ?_⟩
      rw [dataJobsAttemptLoop]
      simp [hlt, hcur, hnotmid]
  | succ n ih =>
    intro attempt sleeps hmax hfail
    have hlt : attempt < maxRetries := by omega
    have hmid : attempt < maxRetries - 1 := by omega
    have hcurfail : failureCause (attemptOutcome attempt) ≠ none :=
      hfail attempt (Nat.le_refl _) hlt
    obtain ⟨c, hc, hrec⟩ := ih (attempt + 1) (sleeps ++ [retryDelay * 2 ^ attempt])
      (by omega) (fun i h1 h2 => hfail i (by omega) h2)
    refine ⟨c, hc, ?_⟩
    cases hcur : attemptOutcome attempt with
    | success l => exact absurd (by simp [failureCause, hcur]) hcurfail
    | httpStatusError =>
      rw [dataJobsAttemptLoop]
      simp only [hlt, dif_pos, hcur, if_pos hmid]
      rw [hrec, List.range'_succ]
      simp
    | missingTokenError =>
      rw [dataJobsAttemptLoop]
      simp only [hlt, dif_pos, hcur, if_pos hmid]
      rw [hrec, List.range'_succ]
      simp

/-- C4: when the registry answers the first attempt, a non-empty job list
resolves to the descriptor parsed from the first entry (the log holding the
single-job debug line, or only the multiple-jobs warning when more than one
entry is present), with no retry sleeps; an empty job list fails at once with
the no-job-found resolution error and no retry sleeps. -/
theorem c4_first_job_or_empty_failure (attemptOutcome : Nat → AttemptResult)
    (maxRetries retryDelay : Nat) (jobs : List DataJob)
    (hmax : 1 ≤ maxRetries) (h0 : attemptOutcome 0 = .success jobs) :
    (∀ j rest, jobs = j :: rest →
      get_message_bus_details attemptOutcome maxRetries retryDelay =
        ((parse_message_bus_connection j).map (fun thp =>
          (⟨thp.1, thp.2.1, thp.2.2⟩,
           (if jobs.length = 1 then [⟨Severity.debug, "Retrieved data job"⟩] else []) ++
           (if jobs.length > 1 then
             [⟨Severity.warning,
               "More than one data job retrieved. Network Data Template App only supports one active data job, unexpected behaviour may occur!"⟩]
            else []))),
         [])) ∧
    (jobs = [] →
      get_data_jobs attemptOutcome maxRetries retryDelay =
        (.error (.dataManagementError .noJobFound), [])) := by
  have hloop : dataJobsAttemptLoop attemptOutcome maxRetries retryDelay 0 [] =
      (.ok (some jobs), []) := by
    have h := dataJobsAttemptLoop_success attemptOutcome maxRetries retryDelay jobs 0 0 []
      (by omega) (fun i h1 h2 => absurd h2 (by omega)) (by simpa using h0)
    simpa using h
  constructor
  · intro j rest hj
    subst hj
    unfold get_message_bus_details get_data_jobs
    rw [hloop]
    cases hp : parse_message_bus_connection j with
    | error e => simp [hp, Except.map]
    | ok thp => simp [hp, Except.map]
  · intro hj
    subst hj
    unfold get_data_jobs
    rw [hloop]
    simp

/-- Witness for C4: a single-job registry response resolves to that job's
parsed descriptor with the debug log line and no sleeps; an empty response
fails immediately with the no-job-found error and no sleeps. -/
theorem c4_witness :
    get_message_bus_details
        (fun _ => .success [⟨some "job1", ⟨[⟨"bootstrap.example.com", 9092⟩], "ctr-processed"⟩⟩])
        3 5 =
      ((parse_message_bus_connection
          ⟨some "job1", ⟨[⟨"bootstrap.example.com", 9092⟩], "ctr-processed"⟩⟩).map (fun thp =>
        (⟨thp.1, thp.2.1, thp.2.2⟩,
         (if [(⟨some "job1", ⟨[⟨"bootstrap.example.com", 9092⟩], "ctr-processed"⟩⟩ :
             DataJob)].length = 1 then [⟨Severity.debug, "Retrieved data job"⟩] else []) ++
         (if [(⟨some "job1", ⟨[⟨"bootstrap.example.com", 9092⟩], "ctr-processed"⟩⟩ :
             DataJob)].length > 1 then
           [⟨Severity.warning,
             "More than one data job retrieved. Network Data Template App only supports one active data job, unexpected behaviour may occur!"⟩]
          else []))),
       []) ∧
    get_data_jobs (fun _ => .success []) 3 5 =
      (.error (.dataManagementError .noJobFound), []) :=
  ⟨(c4_first_job_or_empty_failure
      (fun _ => .success [⟨some "job1", ⟨[⟨"bootstrap.example.com", 9092⟩], "ctr-processed"⟩⟩])
      3 5 [⟨some "job1", ⟨[⟨"bootstrap.example.com", 9092⟩], "ctr-processed"⟩⟩]
      (by omega) rfl).1
      ⟨some "job1", ⟨[⟨"bootstrap.example.com", 9092⟩], "ctr-processed"⟩⟩ [] rfl,
   (c4_first_job_or_empty_failure (fun _ => .success []) 3 5 []
      (by omega) rfl).2 rfl⟩

/-- C5: a token or HTTP failure of the jobs request is retried with sleeps of
`retry_delay * 2 ^ attempt` seconds between attempts; if some attempt before
exhaustion succeeds, the loop proceeds with that response after exactly the
sleeps of the failed attempts; after `max_retries` consecutive failures the
resolution fails with a `DataManagementError` carrying the cause of the final
failure. -/
theorem c5_retry_backoff_and_exhaustion (attemptOutcome : Nat → AttemptResult)
    (maxRetries retryDelay : Nat) :
    (∀ k jobs, k < maxRetries →
      (∀ i, i < k → failureCause (attemptOutcome i) ≠ none) →
      attemptOutcome k = .success jobs →
      dataJobsAttemptLoop attemptOutcome maxRetries retryDelay 0 [] =
        (.ok (some jobs), (List.range k).map (fun i => retryDelay * 2 ^ i))) ∧
    (1 ≤ maxRetries →
      (∀ i, i < maxRetries → failureCause (attemptOutcome i) ≠ none) →
      ∃ c, failureCause (attemptOutcome (maxRetries - 1)) = some c ∧
        get_data_jobs attemptOutcome maxRetries retryDelay =
          (.error (.dataManagementError c),
           (List.range (maxRetries - 1)).map (fun i => retryDelay * 2 ^ i))) := by
  constructor
  · intro k jobs hk hfail hsucc
    have h := dataJobsAttemptLoop_success attemptOutcome maxRetries retryDelay jobs k 0 []
      (by omega) (fun i h1 h2 => hfail i (by omega)) (by simpa using hsucc)
    rw [h]
    simp [List.range_eq_range']
  · intro hmax hfail
    obtain ⟨c, hc, hloop⟩ := dataJobsAttemptLoop_failure attemptOutcome maxRetries
      retryDelay (maxRetries - 1) 0 [] (by omega) (fun i h1 h2 => hfail i h2)
    refine ⟨c, hc, ?_⟩
    unfold get_data_jobs
    rw [hloop]
    simp [List.range_eq_range']

/-- Witness for C5: with the first attempt failing on HTTP and the second
succeeding, the loop succeeds after one backoff sleep; with every attempt
failing on a missing token and two attempts allowed, resolution fails with
the token cause after one backoff sleep. -/
theorem c5_witness :
    dataJobsAttemptLoop
        (fun n => if n = 0 then .httpStatusError
          else .success [⟨Option.none, ⟨[⟨"h", 1⟩], "t"⟩⟩]) 3 5 0 [] =
      (.ok (some [⟨Option.none, ⟨[⟨"h", 1⟩], "t"⟩⟩]),
       (List.range 1).map (fun i => 5 * 2 ^ i)) ∧
    (∃ c, failureCause ((fun _ => AttemptResult.missingTokenError) (2 - 1)) = some c ∧
      get_data_jobs (fun _ => AttemptResult.missingTokenError) 2 3 =
        (.error (.dataManagementError c),
         (List.range (2 - 1)).map (fun i => 3 * 2 ^ i))) :=
  ⟨(c5_retry_backoff_and_exhaustion
      (fun n => if n = 0 then .httpStatusError
        else .success [⟨Option.none, ⟨[⟨"h", 1⟩], "t"⟩⟩]) 3 5).1 1
      [⟨Option.none, ⟨[⟨"h", 1⟩], "t"⟩⟩] (by omega)
      (fun i hi => by
        have : i = 0 := by omega
        subst this
        simp [failureCause])
      rfl,
   (c5_retry_backoff_and_exhaustion (fun _ => AttemptResult.missingTokenError) 2 3).2
      (by omega) (fun i _ => by simp [failureCause])⟩

theorem reportRows_of_covering (attributeName : String)
    (fetchAttr : String → Option String) (cachedDict : List (String × Bool)) :
    ∀ l : List (String × Bool),
      (∀ p ∈ l, cachedDict.lookup p.1 = some p.2) →
      reportRows attributeName cachedDict
          (get_attributes_for_source_ids fetchAttr (l.map Prod.fst)) =
        .ok (l.map (fun p => reportRow attributeName p.1 (fetchAttr p.1) p.2)) := by
  intro l
  induction l with
  | nil =>
    intro _
    simp [get_attributes_for_source_ids, reportRows]
  | cons p rest ih =>
    intro hl
    have hp := hl p (List.mem_cons_self p rest)
    have hrec := ih (fun q hq => hl q (List.mem_cons_of_mem p hq))
    simp only [get_attributes_for_source_ids, List.map_cons,
      get_attribute_for_source_id] at hrec ⊢
    rw [reportRows, hp, hrec]

/-- C9: with distinct identifiers in the status map, a reporter tick never
fails as a whole: the rows are exactly one row per snapshot entry, each
rendering its own fetched attribute (the `UNKNOWN` placeholder exactly when
that identifier's fetch yields nothing), so a failed lookup affects only its
own row; and the emitted summary states the count of identifiers with a true
status out of the total number of identifiers in the snapshot. -/
theorem c9_report_isolated_failures (fetchAttr : String → Option String)
    (attributeName : String) (clear : Bool) (m : List (String × Bool))
    (hnd : (m.map Prod.fst).Nodup) :
    renderAttr Option.none = "UNKNOWN" ∧
    get_report_data fetchAttr attributeName clear m =
      (.ok ((snapshotStatusMap m).map
        (fun p => reportRow attributeName p.1 (fetchAttr p.1) p.2)),
       if clear then resetStatusMap m else m) ∧
    log_message fetchAttr attributeName clear m =
      .ok (((m.map Prod.snd).count true, m.length),
        (snapshotStatusMap m).map
          (fun p => reportRow attributeName p.1 (fetchAttr p.1) p.2),
        if clear then resetStatusMap m else m) := by
  have hperm : List.Perm (snapshotStatusMap m) m := List.perm_insertionSort itemKeyLE m
  have hnd2 : ((snapshotStatusMap m).map Prod.fst).Nodup :=
    ((hperm.map Prod.fst).nodup_iff).mpr hnd
  have hcov : ∀ p ∈ snapshotStatusMap m,
      (snapshotStatusMap m).lookup p.1 = some p.2 :=
    lookup_self_of_nodup hnd2
  have hrows := reportRows_of_covering attributeName fetchAttr
    (snapshotStatusMap m) (snapshotStatusMap m) hcov
  have hreport : get_report_data fetchAttr attributeName clear m =
      (.ok ((snapshotStatusMap m).map
        (fun p => reportRow attributeName p.1 (fetchAttr p.1) p.2)),
       if clear then resetStatusMap m else m) := by
    simp only [get_report_data]
    rw [hrows]
  refine ⟨rfl, hreport, ?_⟩
  unfold log_message
  rw [hreport]
  simp [hperm.length_eq]

/-- Witness for C9, the scenario of the spec: watch-set `{A: true, B: false}`
with the attribute lookup succeeding for `A` (`ENABLED`) and failing for `B`:
the report holds the `A ... ENABLED ... True` row and the
`B ... UNKNOWN ... False` row, and the summary states 1 out of 2. -/
theorem c9_witness :
    log_message (fun s => if s = "A" then some "ENABLED" else Option.none)
        "operationalState" false [("A", true), ("B", false)] =
      .ok ((1, 2),
        ["fdn=A; operationalState=ENABLED; countersCollected=True",
         "fdn=B; operationalState=UNKNOWN; countersCollected=False"],
        [("A", true), ("B", false)]) := by
  have h := (c9_report_isolated_failures
    (fun s => if s = "A" then some "ENABLED" else Option.none)
    "operationalState" false [("A", true), ("B", false)] (by decide)).2.2
  have hAB : ("A" : String) ≤ "B" := by
    rw [String.le_iff_toList_le]
    decide
  rw [h]
  simp only [snapshotStatusMap, List.insertionSort, List.orderedInsert, itemKeyLE]
  rw [if_pos hAB]
  rfl

end NetworkDataTemplateApp
